import Mathlib

/-!
Shallow embedding of `dayone2notion.py`, a Day One → Notion migration
script, together with a spec-modelled CSV exporter.  Python strings are
modelled as lists of Unicode code points (`List Char`), which matches
Python's `len`, slicing and `split` semantics exactly.  The filesystem
and the network are modelled as explicit oracles passed in as functions.
-/

/-- Python `str`: a sequence of Unicode code points. -/
abbrev PyStr := List Char

namespace DayOne

/-! ### Modelling `datetime.fromisoformat` and timezone conversion

The script parses `creationDate` strings with
`datetime.fromisoformat(s.replace('Z', '+00:00'))`, sorts by the
resulting (timezone-aware) datetimes, and formats them in the
`Asia/Tokyo` timezone (a fixed UTC+9 offset for all modern dates) as
`YYYY-MM-DD`.  We model the parser on the ISO-8601 profile the exports
use: `YYYY-MM-DD`, optionally followed by a separator and `HH:MM:SS`,
an optional fractional-second part, and an optional `±HH:MM` offset.
Aware datetimes compare by instant; we represent the parsed value
together with its instant in microseconds since the Unix epoch
(naive datetimes are ordered as if UTC). -/

def digitVal (c : Char) : Option Nat :=
  if '0' ≤ c ∧ c ≤ '9' then some (c.toNat - 48) else none

def parseDigits : Nat → Nat → PyStr → Option (Nat × PyStr)
  | 0, acc, cs => some (acc, cs)
  | _ + 1, _, [] => none
  | n + 1, acc, c :: cs =>
    match digitVal c with
    | some d => parseDigits n (acc * 10 + d) cs
    | none => none

/-- Parse exactly `n` decimal digits. -/
def parseFixed (n : Nat) (cs : PyStr) : Option (Nat × PyStr) :=
  parseDigits n 0 cs

def expectChar (c : Char) : PyStr → Option PyStr
  | [] => none
  | x :: xs => if x = c then some xs else none

def isLeap (y : Nat) : Bool :=
  decide ((y % 4 = 0 ∧ y % 100 ≠ 0) ∨ y % 400 = 0)

def daysInMonth (y m : Nat) : Nat :=
  if m = 2 then (if isLeap y then 29 else 28)
  else if m = 4 ∨ m = 6 ∨ m = 9 ∨ m = 11 then 30
  else 31

/-- A parsed Python `datetime`; `offset` is the UTC offset in minutes
(`none` for a naive datetime). -/
structure PyDateTime where
  year : Nat
  month : Nat
  day : Nat
  hour : Nat
  minute : Nat
  second : Nat
  usecond : Nat
  offset : Option Int
deriving DecidableEq

/-- Fractional seconds: `.` followed by 1 to 6 digits, scaled to
microseconds; absent fraction contributes 0. -/
def parseFrac (cs : PyStr) : Option (Nat × PyStr) :=
  match cs with
  | '.' :: rest =>
    let ds := rest.takeWhile (fun c => (digitVal c).isSome)
    if ds.length = 0 ∨ 6 < ds.length then none
    else
      some (ds.foldl (fun a c => a * 10 + (c.toNat - 48)) 0 * 10 ^ (6 - ds.length),
            rest.drop ds.length)
  | _ => some (0, cs)

/-- Optional trailing UTC offset `±HH:MM` (in minutes). -/
def parseOffsetPart (cs : PyStr) : Option (Option Int × PyStr) :=
  match cs with
  | [] => some (none, [])
  | '+' :: rest =>
    match parseFixed 2 rest with
    | some (h, r1) =>
      match expectChar ':' r1 with
      | some r2 =>
        match parseFixed 2 r2 with
        | some (m, r3) =>
          if 23 < h ∨ 59 < m then none else some (some ((h : Int) * 60 + m), r3)
        | none => none
      | none => none
    | none => none
  | '-' :: rest =>
    match parseFixed 2 rest with
    | some (h, r1) =>
      match expectChar ':' r1 with
      | some r2 =>
        match parseFixed 2 r2 with
        | some (m, r3) =>
          if 23 < h ∨ 59 < m then none else some (some (-((h : Int) * 60 + m)), r3)
        | none => none
      | none => none
    | none => none
  | _ => none

/-- Model of `datetime.fromisoformat` on the profile used by the
exports; returns `none` where Python raises `ValueError`. -/
def fromisoformat (s : PyStr) : Option PyDateTime := do
  let (y, r1) ← parseFixed 4 s
  let r2 ← expectChar '-' r1
  let (mo, r3) ← parseFixed 2 r2
  let r4 ← expectChar '-' r3
  let (d, r5) ← parseFixed 2 r4
  if y < 1 ∨ mo < 1 ∨ 12 < mo ∨ d < 1 ∨ daysInMonth y mo < d then none
  else
    match r5 with
    | [] => some ⟨y, mo, d, 0, 0, 0, 0, none⟩
    | sep :: r6 =>
      if sep ≠ 'T' ∧ sep ≠ ' ' then none
      else do
        let (h, r7) ← parseFixed 2 r6
        let r8 ← expectChar ':' r7
        let (mi, r9) ← parseFixed 2 r8
        let r10 ← expectChar ':' r9
        let (se, r11) ← parseFixed 2 r10
        let (us, r12) ← parseFrac r11
        let (off, r13) ← parseOffsetPart r12
        if r13 ≠ [] ∨ 23 < h ∨ 59 < mi ∨ 59 < se then none
        else some ⟨y, mo, d, h, mi, se, us, off⟩

/-- `s.replace('Z', '+00:00')`. -/
def pyReplaceZ : PyStr → PyStr
  | [] => []
  | 'Z' :: cs => '+' :: '0' :: '0' :: ':' :: '0' :: '0' :: pyReplaceZ cs
  | c :: cs => c :: pyReplaceZ cs

/-- Days since 1970-01-01 of a civil date (proleptic Gregorian). -/
def daysFromCivil (y : Int) (m d : Nat) : Int :=
  let y2 : Int := if m ≤ 2 then y - 1 else y
  let era : Int := Int.fdiv y2 400
  let yoe : Int := y2 - era * 400
  let mp : Int := if 2 < m then (m : Int) - 3 else (m : Int) + 9
  let doy : Int := Int.fdiv (153 * mp + 2) 5 + d - 1
  let doe : Int := yoe * 365 + Int.fdiv yoe 4 - Int.fdiv yoe 100 + doy
  era * 146097 + doe - 719468

/-- Civil date `(year, month, day)` of a day count since 1970-01-01. -/
def civilFromDays (z0 : Int) : Int × Nat × Nat :=
  let z := z0 + 719468
  let era := Int.fdiv z 146097
  let doe := z - era * 146097
  let yoe := Int.fdiv (doe - Int.fdiv doe 1460 + Int.fdiv doe 36524 - Int.fdiv doe 146096) 365
  let y := yoe + era * 400
  let doy := doe - (365 * yoe + Int.fdiv yoe 4 - Int.fdiv yoe 100)
  let mp := Int.fdiv (5 * doy + 2) 153
  let d := doy - Int.fdiv (153 * mp + 2) 5 + 1
  let m := if mp < 10 then mp + 3 else mp - 9
  (if m ≤ 2 then y + 1 else y, m.toNat, d.toNat)

/-- The instant of a parsed datetime, in microseconds since the Unix
epoch (naive datetimes are taken as UTC). -/
def instantUSec (dt : PyDateTime) : Int :=
  ((daysFromCivil dt.year dt.month dt.day) * 86400
      + dt.hour * 3600 + dt.minute * 60 + dt.second
      - (dt.offset.getD 0) * 60) * 1000000 + dt.usecond

def natChars (n : Nat) : PyStr := (toString n).data

def padNum (w n : Nat) : PyStr :=
  List.replicate (w - (natChars n).length) '0' ++ natChars n

/-- `dt_utc.astimezone(ZoneInfo("Asia/Tokyo")).strftime('%Y-%m-%d')`:
shift the instant by +9 hours and format the civil date. -/
def jstDateChars (usec : Int) : PyStr :=
  let sec := Int.fdiv usec 1000000
  let days := Int.fdiv (sec + 9 * 3600) 86400
  let c := civilFromDays days
  padNum 4 c.1.toNat ++ ['-'] ++ padNum 2 c.2.1 ++ ['-'] ++ padNum 2 c.2.2

end DayOne

namespace DayOne

/-! ### The data model of a Day One export -/

/-- One photo reference of an entry; the script reads the keys with
`photo.get('md5')` / `photo.get('type')`, so both are optional. -/
structure Photo where
  md5 : Option PyStr
  type : Option PyStr
deriving DecidableEq

/-- One journal entry.  `creationDate` models
`entry.get('creationDate', '')` (missing key ↦ `[]`), `text` models
`entry.get('text', '')`, and `photos` is `some _` exactly when
`'photos' in entry`. -/
structure Entry where
  creationDate : PyStr
  text : PyStr
  photos : Option (List Photo)
deriving DecidableEq

/-- An entry admitted to the sorted batch, paired with its
pre-calculated sort key (`{'dt': dt_utc, 'data': entry}`). -/
structure AdmEntry where
  dt : Int
  data : Entry
deriving DecidableEq

/-- The admission step of the reading loop: an entry enters
`all_entries` iff its `creationDate` is non-empty and
`datetime.fromisoformat(creation_date_str.replace('Z', '+00:00'))`
succeeds; a `ValueError` is swallowed (`pass`). -/
def admitEntry (entry : Entry) : Option AdmEntry :=
  if entry.creationDate = [] then none
  else
    match fromisoformat (pyReplaceZ entry.creationDate) with
    | some dtv => some ⟨instantUSec dtv, entry⟩
    | none => none

/-- All admitted entries of one file's `entries` list, in order. -/
def collectEntries (es : List Entry) : List AdmEntry :=
  es.filterMap admitEntry

/-- One input JSON file as the reading loop sees it: either `json.load`
(or the read itself) raises, or it yields a JSON object whose `entries`
key may be absent. -/
inductive JsonFile where
  | malformed (path : PyStr)
  | parsed (path : PyStr) (entries : Option (List Entry))
deriving DecidableEq

/-- Reading one file: the admitted entries it contributes and the
messages it prints.  A file whose `entries` key is absent contributes
nothing and prints nothing; a file that raises prints an error. -/
def readFile : JsonFile → List AdmEntry × List PyStr
  | .malformed p => ([], [("Error reading ").data ++ p])
  | .parsed _ none => ([], [])
  | .parsed _ (some es) => (collectEntries es, [])

/-- The whole reading loop over the globbed files. -/
def readAll (files : List JsonFile) : List AdmEntry × List PyStr :=
  files.foldl (fun acc f => (acc.1 ++ (readFile f).1, acc.2 ++ (readFile f).2)) ([], [])

/-! ### Sorting (`all_entries.sort(key=lambda x: x['dt'])`) -/

def entryLe (a b : AdmEntry) : Prop := a.dt ≤ b.dt

instance : DecidableRel entryLe :=
  fun a b => inferInstanceAs (Decidable (a.dt ≤ b.dt))

instance : IsTotal AdmEntry entryLe := ⟨fun a b => Int.le_total a.dt b.dt⟩

instance : IsTrans AdmEntry entryLe := ⟨fun _ _ _ hab hbc => le_trans hab hbc⟩

/-- Python's stable ascending sort by the pre-computed key, modelled by
a stable comparison sort. -/
def sortEntries (l : List AdmEntry) : List AdmEntry :=
  List.insertionSort entryLe l

/-! ### Per-entry page construction -/

/-- A Notion child block as the script builds it: a paragraph with one
plain rich-text span, or an image attached by upload id. -/
inductive Block where
  | paragraph (content : PyStr)
  | image (uploadId : PyStr)
deriving DecidableEq

/-- `if len(line) > 2000: line = line[:2000] + "..."`. -/
def truncLine (line : PyStr) : PyStr :=
  if 2000 < line.length then line.take 2000 ++ ['.', '.', '.'] else line

/-- `text.split('\n')` (Python `str.split` on an explicit separator:
no merging of adjacent separators, empty string yields `[""]`). -/
def splitLinesAux : PyStr → PyStr → List PyStr
  | [], acc => [acc.reverse]
  | c :: cs, acc =>
    if c = '\n' then acc.reverse :: splitLinesAux cs []
    else splitLinesAux cs (c :: acc)

def pySplitLines (s : PyStr) : List PyStr := splitLinesAux s []

/-- The text loop: append one paragraph block per line (empty lines
included), truncating long lines. -/
def addTextBlocks (children : List Block) : List PyStr → List Block
  | [] => children
  | l :: ls => addTextBlocks (children ++ [Block.paragraph (truncLine l)]) ls

/-- The paragraph blocks the entry text alone produces. -/
def textBlocksOf (text : PyStr) : List Block :=
  addTextBlocks [] (pySplitLines text)

/-! ### Filesystem / network oracles and photo upload -/

/-- External world: which paths exist locally, whether the
create-upload-slot request yields a usable id for a path, and whether
streaming the bytes succeeds. -/
structure Env where
  fileExists : PyStr → Bool
  createSlot : PyStr → Option PyStr
  sendOk : PyStr → Bool

/-- `upload_file_to_notion`: `None` for a missing file; otherwise the
three-step handshake — create a file-upload object, stream the bytes,
return the upload id — with any exception caught and `None` returned. -/
def upload_file_to_notion (env : Env) (file_path : PyStr) : Option PyStr :=
  if env.fileExists file_path then
    match env.createSlot file_path with
    | some uploadId => if env.sendOk file_path then some uploadId else none
    | none => none
  else none

/-- `os.path.join(DAYONE_DIR, "photos")` plus the trailing separator
`os.path.join` inserts before the filename. -/
def photosDir : PyStr := ("dayone/photos/").data

/-- One iteration of the photo loop.  The accumulator carries the
blocks built so far and the filenames for which an upload was
attempted (i.e. the backing file existed and
`upload_file_to_notion` was called). -/
def photoStep (env : Env) (acc : List Block × List PyStr) (photo : Photo) :
    List Block × List PyStr :=
  match photo.md5, photo.type with
  | some m, some t =>
    let filename := m ++ ['.'] ++ t
    let photo_path := photosDir ++ filename
    if env.fileExists photo_path then
      match upload_file_to_notion env photo_path with
      | some uploadId => (acc.1 ++ [Block.image uploadId], acc.2 ++ [filename])
      | none =>
        (acc.1 ++ [Block.paragraph (("[Image Upload Failed: ").data ++ filename ++ [']'])],
         acc.2 ++ [filename])
    else acc
  | _, _ => acc

/-- The photo loop of one entry: its image (or fallback) blocks and the
filenames whose upload was attempted. -/
def photoBlocks (env : Env) (entry : Entry) : List Block × List PyStr :=
  match entry.photos with
  | none => ([], [])
  | some ps => ps.foldl (photoStep env) ([], [])

/-! ### Title / date computation of the creation loop -/

/-- The two date-computation blocks at the top of the creation loop:
the first formats the cached `item['dt']`, the second re-parses
`creationDate` and on (unreachable) failure falls back to the raw
string for the title while the date property keeps its prior value.
Returns `(formatted_date, iso_date_jst)`. -/
def titleAndDate (item : AdmEntry) : PyStr × PyStr :=
  let s := item.data.creationDate
  let fd0 : PyStr := if s ≠ [] then jstDateChars item.dt else []
  let iso0 : PyStr := if s ≠ [] then jstDateChars item.dt else []
  if s ≠ [] then
    match fromisoformat (pyReplaceZ s) with
    | some dtv => (jstDateChars (instantUSec dtv), jstDateChars (instantUSec dtv))
    | none => (s, iso0)
  else (fd0, iso0)

/-- The page the script submits for one entry: a `Name` title property,
a `Date` property, and the children blocks. -/
structure Record where
  title : PyStr
  dateStart : PyStr
  children : List Block
deriving DecidableEq

/-- Build the page for one admitted entry: title and date from the
timestamp, children = image blocks then one paragraph per text line. -/
def mkRecord (env : Env) (item : AdmEntry) : Record :=
  let td := titleAndDate item
  let imgs := (photoBlocks env item.data).1
  ⟨td.1, td.2, addTextBlocks imgs (pySplitLines item.data.text)⟩

end DayOne

namespace DayOne

/-! ### The record-creation loop -/

/-- Mutable state of the creation loop: the two counters declared
before the loop, the pages successfully created, and everything
printed.  `skipped_count` is initialised to 0 by the script. -/
structure LoopState where
  count : Nat
  skipped_count : Nat
  createdRecords : List Record
  logs : List PyStr
deriving DecidableEq

/-- Initial loop state (`count = 0`, `skipped_count = 0`). -/
def initState : LoopState := ⟨0, 0, [], []⟩

/-- One iteration of the creation loop.  `okCreate` is the oracle for
whether `notion.pages.create` succeeds for this item; on failure the
`except` clause prints and the loop continues. -/
def createStep (env : Env) (okCreate : AdmEntry → Bool) (st : LoopState)
    (item : AdmEntry) : LoopState :=
  let r := mkRecord env item
  if okCreate item then
    { st with
      count := st.count + 1
      createdRecords := st.createdRecords ++ [r]
      logs := st.logs ++ [("Created entry: ").data ++ r.title] }
  else
    { st with logs := st.logs ++ [("Error creating page for ").data ++ r.title] }

/-- The whole creation loop over the sorted batch. -/
def runLoop (env : Env) (okCreate : AdmEntry → Bool) (items : List AdmEntry) :
    LoopState :=
  items.foldl (createStep env okCreate) initState

/-! ### Configuration and the top-level run -/

/-- The state of `secrets.json` as `load_secrets` can observe it. -/
inductive SecretsFile where
  | absent
  | invalidJson
  | valid (token dbid : PyStr)
deriving DecidableEq

/-- `load_secrets`: the parsed secrets (or `None`) and what it prints. -/
def load_secrets : SecretsFile → Option (PyStr × PyStr) × List PyStr
  | .absent =>
    (none, [("Error: secrets.json not found. Please create it with NOTION_TOKEN and NOTION_DATABASE_ID.").data])
  | .invalidJson => (none, [("Error: Invalid JSON in secrets.json.").data])
  | .valid token dbid => (some (token, dbid), [])

/-- Observable outcome of a whole run: which entry files were read,
the sorted batch, the final loop state (`none` when the run aborted
before the pipeline), and everything printed. -/
structure RunResult where
  filesRead : List JsonFile
  sorted : List AdmEntry
  finalState : Option LoopState
  logs : List PyStr
deriving DecidableEq

/-- `process_dayone_json_to_notion`: load secrets (aborting on
failure before any entry file is opened), read and admit all entries,
sort them, and run the creation loop. -/
def process_dayone_json_to_notion (sf : SecretsFile) (files : List JsonFile)
    (env : Env) (okCreate : AdmEntry → Bool) : RunResult :=
  match load_secrets sf with
  | (none, logs) => ⟨[], [], none, logs⟩
  | (some _, _) =>
    let rd := readAll files
    let sorted := sortEntries rd.1
    let fin := runLoop env okCreate sorted
    ⟨files, sorted, some fin, rd.2 ++ fin.logs⟩

/-! ### The CSV exporter (spec-modelled) -/

/-- Filenames of an entry's photo references, `<md5>.<type>`. -/
def csvPhotoNames (entry : Entry) : List PyStr :=
  (entry.photos.getD []).filterMap fun ph =>
    match ph.md5, ph.type with
    | some m, some t => some (m ++ ['.'] ++ t)
    | _, _ => none

/-- `", ".join(...)`. -/
def joinSep (sep : PyStr) : List PyStr → PyStr
  | [] => []
  | [x] => x
  | x :: xs => x ++ sep ++ joinSep sep xs

/-- Modelled from the spec: the CSV exporter script itself is not among
the repository's source files (only `dayone2notion.py` is), so its row
construction follows spec §4.2 — date string verbatim, text verbatim,
photo filenames joined with `", "`. -/
def csvRow (entry : Entry) : PyStr × PyStr × PyStr :=
  (entry.creationDate, entry.text, joinSep ((", ").data) (csvPhotoNames entry))

/-- Modelled from the spec: the entries the CSV path uses — every entry
of every file having an `entries` key, in file order, with no date
parsing or filtering. -/
def csvEntries (files : List JsonFile) : List Entry :=
  files.foldl
    (fun acc f =>
      match f with
      | .parsed _ (some es) => acc ++ es
      | _ => acc)
    []

/-- Total number of entries across all files having an `entries` key. -/
def csvEntryCount (files : List JsonFile) : Nat :=
  files.foldl
    (fun n f =>
      match f with
      | .parsed _ (some es) => n + es.length
      | _ => n)
    0

/-- Modelled from the spec: one CSV row per entry. -/
def csvRows (files : List JsonFile) : List (PyStr × PyStr × PyStr) :=
  (csvEntries files).map csvRow

/-- Modelled from the spec: the written file (header `Date,Text,Photos`
then the rows), or no file plus a message when zero entries were
found. -/
def csvOutput (files : List JsonFile) :
    Option (List (PyStr × PyStr × PyStr)) × List PyStr :=
  if csvRows files = [] then (none, [("No entries found.").data])
  else (some ((("Date").data, ("Text").data, ("Photos").data) :: csvRows files), [])

end DayOne

namespace DayOne

/-! ### Derived observations used in the statements -/

/-- The message the creation loop prints for one item. -/
def createLogOf (env : Env) (okCreate : AdmEntry → Bool) (item : AdmEntry) : PyStr :=
  if okCreate item then ("Created entry: ").data ++ (mkRecord env item).title
  else ("Error creating page for ").data ++ (mkRecord env item).title

/-- The photo filenames for which the loop attempts an upload: both
keys present and the backing file exists. -/
def attemptedList (env : Env) (ps : List Photo) : List PyStr :=
  ps.filterMap fun ph =>
    match ph.md5, ph.type with
    | some m, some t =>
      if env.fileExists (photosDir ++ (m ++ ['.'] ++ t)) = true then
        some (m ++ ['.'] ++ t)
      else none
    | _, _ => none

def attemptedOf (env : Env) (entry : Entry) : List PyStr :=
  attemptedList env (entry.photos.getD [])

/-- The block one attempted upload contributes: an image block on
success, a fallback paragraph on failure. -/
def outcomeBlock (env : Env) (fn : PyStr) : Block :=
  match upload_file_to_notion env (photosDir ++ fn) with
  | some uploadId => Block.image uploadId
  | none => Block.paragraph (("[Image Upload Failed: ").data ++ fn ++ [']'])

/-- The content string of a block (the rich-text content of a
paragraph, the upload id of an image). -/
def blockContent : Block → PyStr
  | .paragraph c => c
  | .image uploadId => uploadId

/-- Number of non-empty lines of a text, for stating the split claim. -/
def nonEmptyLineCount (text : PyStr) : Nat :=
  ((pySplitLines text).filter (fun l => !l.isEmpty)).length

/-! ### Concrete fixtures -/

def entryJan1 : Entry := ⟨("2024-01-01T00:00:00Z").data, ("hello").data, none⟩

def entryJan2 : Entry := ⟨("2024-01-02T00:00:00Z").data, ("world").data, none⟩

def entryBadDate : Entry := ⟨("not-a-date").data, ("bad").data, none⟩

/-- `entryJan1` as admitted to the batch (2024-01-01T00:00:00Z is
1704067200 seconds after the epoch). -/
def admittedJan1 : AdmEntry := ⟨1704067200000000, entryJan1⟩

/-- A world with no local files and a failing network. -/
def env0 : Env := ⟨fun _ => false, fun _ => none, fun _ => false⟩

/-- A page-creation oracle that always fails. -/
def alwaysFailCreate : AdmEntry → Bool := fun _ => false

def fileNoEntries : JsonFile := JsonFile.parsed (("dayone/export.json").data) none

/-- A line of 2001 characters (just above the truncation threshold). -/
def longLine : PyStr := List.replicate 2001 'b'

/-- Text with a non-empty line, an empty line, and an overlong line. -/
def cexText : PyStr := 'a' :: '\n' :: '\n' :: longLine

/-! ### Helper lemmas -/

theorem splitLinesAux_newline (cs : PyStr) (acc : PyStr) :
    splitLinesAux ('\n' :: cs) acc = acc.reverse :: splitLinesAux cs [] := by
  simp [splitLinesAux]

theorem splitLinesAux_other (c : Char) (cs : PyStr) (acc : PyStr) (h : c ≠ '\n') :
    splitLinesAux (c :: cs) acc = splitLinesAux cs (c :: acc) := by
  simp [splitLinesAux, h]

theorem splitLinesAux_no_newline (l : PyStr) (acc : PyStr) (h : '\n' ∉ l) :
    splitLinesAux l acc = [acc.reverse ++ l] := by
  induction l generalizing acc with
  | nil => simp [splitLinesAux]
  | cons c cs ih =>
    have hc : c ≠ '\n' := fun hcn => h (hcn ▸ List.mem_cons_self c cs)
    rw [splitLinesAux_other c cs acc hc, ih _ (fun hm => h (List.mem_cons_of_mem c hm))]
    simp

theorem addTextBlocks_eq (ls : List PyStr) (children : List Block) :
    addTextBlocks children ls
      = children ++ ls.map (fun l => Block.paragraph (truncLine l)) := by
  induction ls generalizing children with
  | nil => simp [addTextBlocks]
  | cons l ls ih => rw [addTextBlocks, ih]; simp

theorem truncLine_length_le (line : PyStr) : (truncLine line).length ≤ 2003 := by
  unfold truncLine
  split
  · simp only [List.length_append, List.length_take, List.length_cons,
      List.length_nil]
    omega
  · next hlen => omega

theorem truncLine_of_long (line : PyStr) (h : 2000 < line.length) :
    truncLine line = line.take 2000 ++ ['.', '.', '.'] := by
  unfold truncLine
  rw [if_pos h]

theorem admitEntry_eq_some (e : Entry) (item : AdmEntry)
    (h : admitEntry e = some item) :
    item.data = e ∧ e.creationDate ≠ [] ∧
      ∃ dtv, fromisoformat (pyReplaceZ e.creationDate) = some dtv ∧
        item.dt = instantUSec dtv := by
  unfold admitEntry at h
  split at h
  · exact absurd h (by simp)
  · next hne =>
    cases hp : fromisoformat (pyReplaceZ e.creationDate) with
    | none => rw [hp] at h; exact absurd h (by simp)
    | some dtv =>
      rw [hp] at h
      cases h
      exact ⟨rfl, hne, dtv, rfl, rfl⟩

theorem titleAndDate_of_admitted (e : Entry) (item : AdmEntry)
    (h : admitEntry e = some item) :
    titleAndDate item = (jstDateChars item.dt, jstDateChars item.dt) := by
  obtain ⟨hdata, hne, dtv, hparse, hdt⟩ := admitEntry_eq_some e item h
  unfold titleAndDate
  rw [hdata, if_pos hne, hparse, hdt]

theorem createLoop_foldl (env : Env) (okCreate : AdmEntry → Bool)
    (items : List AdmEntry) (st : LoopState) :
    items.foldl (createStep env okCreate) st =
      ⟨st.count + items.countP okCreate,
       st.skipped_count,
       st.createdRecords ++ (items.filter okCreate).map (mkRecord env),
       st.logs ++ items.map (createLogOf env okCreate)⟩ := by
  induction items generalizing st with
  | nil => simp
  | cons item items ih =>
    rw [List.foldl_cons, ih]
    unfold createStep createLogOf
    cases hok : okCreate item
    · simp [List.countP_cons, List.filter_cons, hok]
    · simp [List.countP_cons, List.filter_cons, hok]
      omega

theorem runLoop_eq (env : Env) (okCreate : AdmEntry → Bool)
    (items : List AdmEntry) :
    runLoop env okCreate items =
      ⟨items.countP okCreate, 0,
       (items.filter okCreate).map (mkRecord env),
       items.map (createLogOf env okCreate)⟩ := by
  unfold runLoop initState
  rw [createLoop_foldl]
  simp

theorem attemptedList_cons_full (env : Env) (m t : PyStr) (ps : List Photo) :
    attemptedList env (Photo.mk (some m) (some t) :: ps)
      = if env.fileExists (photosDir ++ (m ++ '.' :: t)) = true then
          (m ++ '.' :: t) :: attemptedList env ps
        else attemptedList env ps := by
  unfold attemptedList
  rw [List.filterMap_cons]
  by_cases hex : env.fileExists (photosDir ++ (m ++ '.' :: t)) = true
  · simp [hex]
  · simp [hex]

theorem photoLoop_foldl (env : Env) (ps : List Photo) (acc : List Block × List PyStr) :
    ps.foldl (photoStep env) acc =
      (acc.1 ++ (attemptedList env ps).map (outcomeBlock env),
       acc.2 ++ attemptedList env ps) := by
  induction ps generalizing acc with
  | nil => simp [attemptedList]
  | cons ph ps ih =>
    rw [List.foldl_cons]
    obtain ⟨m5, ty⟩ := ph
    cases m5 with
    | none =>
      have hA : attemptedList env (Photo.mk none ty :: ps) = attemptedList env ps := by
        cases ty <;> rfl
      rw [show photoStep env acc (Photo.mk none ty) = acc from by
            cases ty <;> simp [photoStep],
          ih, hA]
    | some m =>
      cases ty with
      | none =>
        have hA : attemptedList env (Photo.mk (some m) none :: ps)
            = attemptedList env ps := rfl
        rw [show photoStep env acc (Photo.mk (some m) none) = acc from by
              simp [photoStep],
            ih, hA]
      | some t =>
        rw [attemptedList_cons_full]
        by_cases hex : env.fileExists (photosDir ++ (m ++ '.' :: t)) = true
        · rw [if_pos hex]
          cases hu : upload_file_to_notion env (photosDir ++ (m ++ '.' :: t)) with
          | some uploadId =>
            rw [show photoStep env acc (Photo.mk (some m) (some t))
                  = (acc.1 ++ [Block.image uploadId], acc.2 ++ [m ++ '.' :: t]) from by
                  simp [photoStep, hex, hu],
                ih]
            simp [outcomeBlock, hu]
          | none =>
            rw [show photoStep env acc (Photo.mk (some m) (some t))
                  = (acc.1 ++
                      [Block.paragraph
                        (("[Image Upload Failed: ").data ++ (m ++ '.' :: t) ++ [']'])],
                     acc.2 ++ [m ++ '.' :: t]) from by
                  simp [photoStep, hex, hu],
                ih]
            simp [outcomeBlock, hu]
        · rw [if_neg hex,
              show photoStep env acc (Photo.mk (some m) (some t)) = acc from by
                simp [photoStep, hex],
              ih]

theorem photoBlocks_eq (env : Env) (entry : Entry) :
    photoBlocks env entry =
      ((attemptedOf env entry).map (outcomeBlock env), attemptedOf env entry) := by
  cases hps : entry.photos with
  | none => simp [photoBlocks, hps, attemptedOf, attemptedList]
  | some ps =>
    simp only [photoBlocks, hps]
    rw [photoLoop_foldl]
    simp [attemptedOf, hps]

theorem mem_attemptedList (env : Env) (ps : List Photo) (fn : PyStr)
    (h : fn ∈ attemptedList env ps) :
    env.fileExists (photosDir ++ fn) = true := by
  unfold attemptedList at h
  obtain ⟨ph, _, hph⟩ := List.mem_filterMap.mp h
  obtain ⟨m5, ty⟩ := ph
  cases m5 with
  | none => simp at hph
  | some m =>
    cases ty with
    | none => simp at hph
    | some t =>
      by_cases hex : env.fileExists (photosDir ++ (m ++ '.' :: t)) = true
      · simp only [List.append_assoc, List.singleton_append, hex, if_true] at hph
        cases hph
        exact hex
      · simp [hex] at hph

theorem csvEntries_foldl (files : List JsonFile) (acc : List Entry) :
    files.foldl
        (fun acc f =>
          match f with
          | .parsed _ (some es) => acc ++ es
          | _ => acc)
        acc = acc ++ csvEntries files := by
  induction files generalizing acc with
  | nil => simp [csvEntries]
  | cons f files ih =>
    rw [List.foldl_cons, ih]
    have h2 : csvEntries (f :: files)
        = (match f with
           | .parsed _ (some es) => ([] : List Entry) ++ es
           | _ => []) ++ csvEntries files := by
      unfold csvEntries
      rw [List.foldl_cons, ih]
      cases f with
      | malformed p => simp [csvEntries]
      | parsed p oes => cases oes <;> simp [csvEntries]
    rw [h2]
    cases f with
    | malformed p => simp
    | parsed p oes => cases oes <;> simp

/-- Entry-list equation for one more file. -/
theorem csvEntries_cons (f : JsonFile) (files : List JsonFile) :
    csvEntries (f :: files)
      = (match f with
         | .parsed _ (some es) => es
         | _ => []) ++ csvEntries files := by
  unfold csvEntries
  rw [List.foldl_cons, csvEntries_foldl]
  cases f with
  | malformed p => simp [csvEntries]
  | parsed p oes => cases oes <;> simp [csvEntries]

theorem csvEntryCount_foldl (files : List JsonFile) (n : Nat) :
    files.foldl
        (fun n f =>
          match f with
          | .parsed _ (some es) => n + es.length
          | _ => n)
        n = n + (csvEntries files).length := by
  induction files generalizing n with
  | nil => simp [csvEntries]
  | cons f files ih =>
    rw [List.foldl_cons, ih, csvEntries_cons]
    cases f with
    | malformed p => simp
    | parsed p oes => cases oes <;> simp [Nat.add_assoc]

theorem csvEntryCount_eq (files : List JsonFile) :
    csvEntryCount files = (csvEntries files).length := by
  unfold csvEntryCount
  rw [csvEntryCount_foldl]
  simp

end DayOne

namespace DayOne

theorem newline_not_mem_longLine : ('\n') ∉ longLine := by
  intro hm
  exact absurd (List.mem_replicate.mp hm).2 (by decide)

theorem pySplitLines_cexText : pySplitLines cexText = [['a'], [], longLine] := by
  show splitLinesAux ('a' :: '\n' :: '\n' :: longLine) [] = _
  rw [splitLinesAux_other _ _ _ (by decide), splitLinesAux_newline,
      splitLinesAux_newline, splitLinesAux_no_newline _ _ newline_not_mem_longLine]
  simp

/-- C1 counterexample: on the text `"a\n\n" ++ ('b' repeated 2001
times)` the split produces 3 paragraph blocks but only 2 non-empty
lines, and the block for the overlong line has 2003 characters, so it
is not the case that the blocks number the non-empty lines and all stay
within 2000 characters. -/
theorem text_blocks_claim_counterexample :
    (textBlocksOf cexText).length ≠ nonEmptyLineCount cexText ∧
    ¬ (∀ b ∈ textBlocksOf cexText, (blockContent b).length ≤ 2000) := by
  have hblocks : textBlocksOf cexText
      = [Block.paragraph (truncLine ['a']), Block.paragraph (truncLine []),
         Block.paragraph (truncLine longLine)] := by
    unfold textBlocksOf
    rw [pySplitLines_cexText, addTextBlocks_eq]
    simp
  constructor
  · have hle : longLine.isEmpty = false := by decide
    have hne : nonEmptyLineCount cexText = 2 := by
      unfold nonEmptyLineCount
      rw [pySplitLines_cexText]
      simp [hle]
    rw [hblocks, hne]
    simp
  · intro hall
    have hmem : Block.paragraph (truncLine longLine) ∈ textBlocksOf cexText := by
      rw [hblocks]
      exact List.mem_cons_of_mem _ (List.mem_cons_of_mem _ (List.mem_cons_self _ _))
    have hlen := hall _ hmem
    have hlen2001 : longLine.length = 2001 := by
      unfold longLine
      exact List.length_replicate 2001 'b'
    have hlong : (2000 : Nat) < longLine.length := by omega
    simp only [blockContent] at hlen
    rw [truncLine_of_long _ hlong] at hlen
    simp only [List.length_append, List.length_take, List.length_cons,
      List.length_nil, longLine, List.length_replicate] at hlen
    omega

/-- C1 (amended): splitting the entry text on newlines produces exactly
one paragraph block per line (empty lines included); each block content
is the truncation of its line, hence at most 2003 characters, and a
line exceeding 2000 characters is cut to its first 2000 characters and
suffixed with `"..."`. -/
theorem text_blocks_per_line_truncated (text line : PyStr)
    (h : line ∈ pySplitLines text) :
    (textBlocksOf text).length = (pySplitLines text).length ∧
    Block.paragraph (truncLine line) ∈ textBlocksOf text ∧
    (truncLine line).length ≤ 2003 ∧
    (2000 < line.length → truncLine line = line.take 2000 ++ ['.', '.', '.']) := by
  refine ⟨?_, ?_, truncLine_length_le line, truncLine_of_long line⟩
  · unfold textBlocksOf
    rw [addTextBlocks_eq]
    simp
  · unfold textBlocksOf
    rw [addTextBlocks_eq]
    simp only [List.nil_append]
    exact List.mem_map_of_mem _ h

/-- Witness for the amended C1 at a concrete 2001-character line. -/
theorem text_blocks_per_line_truncated_witness :
    longLine ∈ pySplitLines longLine ∧
    ((textBlocksOf longLine).length = (pySplitLines longLine).length ∧
     Block.paragraph (truncLine longLine) ∈ textBlocksOf longLine ∧
     (truncLine longLine).length ≤ 2003 ∧
     (2000 < longLine.length →
       truncLine longLine = longLine.take 2000 ++ ['.', '.', '.'])) := by
  have hmem : longLine ∈ pySplitLines longLine := by
    show longLine ∈ splitLinesAux longLine []
    rw [splitLinesAux_no_newline _ _ newline_not_mem_longLine]
    simp
  exact ⟨hmem, text_blocks_per_line_truncated longLine longLine hmem⟩

/-- C2: the creation loop receives the admitted entries sorted
ascending by parsed creation timestamp; in particular, of two entries
dated 2024-01-02T00:00:00Z and 2024-01-01T00:00:00Z, the 2024-01-01
entry comes first. -/
theorem remote_sink_ascending_order :
    (∀ items : List AdmEntry, List.Sorted entryLe (sortEntries items)) ∧
    (sortEntries (collectEntries [entryJan2, entryJan1])).map AdmEntry.data
      = [entryJan1, entryJan2] :=
  ⟨fun items => List.sorted_insertionSort entryLe items, by decide⟩

/-- C3 counterexample: a JSON file lacking the `entries` key
contributes zero entries but is NOT logged as skipped — the reading
loop prints nothing for it. -/
theorem missing_entries_key_counterexample :
    ¬ ((readFile fileNoEntries).1 = [] ∧ (readFile fileNoEntries).2 ≠ []) := by
  decide

/-- C3 (amended): a file that parses as JSON but lacks the `entries`
key contributes zero entries and the run continues with the remaining
files, but no log message is emitted for it. -/
theorem missing_entries_key_silent_skip (p : PyStr) (rest : List JsonFile) :
    readFile (JsonFile.parsed p none) = ([], []) ∧
    readAll (JsonFile.parsed p none :: rest) = readAll rest := by
  refine ⟨rfl, ?_⟩
  unfold readAll
  rw [List.foldl_cons]
  simp [readFile]

/-- C4 counterexample: with a single entry whose page creation fails,
the created counter stays 0 but the skipped counter is NOT updated to
1 — it stays 0 because the script never increments it. -/
theorem creation_failure_counterexample :
    ¬ ((runLoop env0 alwaysFailCreate [admittedJan1]).count = 0 ∧
       (runLoop env0 alwaysFailCreate [admittedJan1]).skipped_count = 1) := by
  decide

/-- C4 (amended): a failing page creation is logged and skipped — the
created counter counts only successes, the record list contains exactly
the successfully created pages (so later entries are still processed) —
but the skipped counter is initialised and never updated, remaining
0. -/
theorem creation_failure_tolerated (env : Env) (okCreate : AdmEntry → Bool)
    (pre post : List AdmEntry) (e : AdmEntry) (h : okCreate e = false) :
    (runLoop env okCreate (pre ++ e :: post)).count
        = (pre ++ e :: post).countP okCreate ∧
    (runLoop env okCreate (pre ++ e :: post)).skipped_count = 0 ∧
    (runLoop env okCreate (pre ++ e :: post)).createdRecords
        = ((pre ++ e :: post).filter okCreate).map (mkRecord env) ∧
    ("Error creating page for ").data ++ (mkRecord env e).title
        ∈ (runLoop env okCreate (pre ++ e :: post)).logs := by
  rw [runLoop_eq]
  refine ⟨rfl, rfl, rfl, ?_⟩
  have hmem : e ∈ pre ++ e :: post := by simp
  simp only [List.mem_map]
  exact ⟨e, hmem, by simp [createLogOf, h]⟩

/-- Witness for the amended C4 at a concrete failing entry. -/
theorem creation_failure_tolerated_witness :
    alwaysFailCreate admittedJan1 = false ∧
    ((runLoop env0 alwaysFailCreate ([] ++ admittedJan1 :: [])).count
        = ([] ++ admittedJan1 :: []).countP alwaysFailCreate ∧
     (runLoop env0 alwaysFailCreate ([] ++ admittedJan1 :: [])).skipped_count = 0 ∧
     (runLoop env0 alwaysFailCreate ([] ++ admittedJan1 :: [])).createdRecords
        = (([] ++ admittedJan1 :: []).filter alwaysFailCreate).map (mkRecord env0) ∧
     ("Error creating page for ").data ++ (mkRecord env0 admittedJan1).title
        ∈ (runLoop env0 alwaysFailCreate ([] ++ admittedJan1 :: [])).logs) :=
  ⟨rfl, creation_failure_tolerated env0 alwaysFailCreate [] [] admittedJan1 rfl⟩

/-- C5: the CSV sink (modelled from the spec) writes one row per entry
across all files having an `entries` key, passing date and text through
verbatim and joining photo filenames with `", "`; with zero entries no
file is written and a message is emitted. -/
theorem csv_rows_match_entries (files : List JsonFile) :
    (csvRows files).length = csvEntryCount files ∧
    (∀ entry ∈ csvEntries files,
      csvRow entry
        = (entry.creationDate, entry.text,
           joinSep ((", ").data) (csvPhotoNames entry))) ∧
    (csvEntryCount files = 0 →
      (csvOutput files).1 = none ∧ (csvOutput files).2 ≠ []) := by
  refine ⟨?_, fun entry _ => rfl, fun hzero => ?_⟩
  · unfold csvRows
    rw [List.length_map, csvEntryCount_eq]
  · have hnil : csvRows files = [] := by
      unfold csvRows
      rw [csvEntryCount_eq] at hzero
      simp [List.length_eq_zero.mp hzero]
    unfold csvOutput
    rw [if_pos hnil]
    exact ⟨rfl, by simp⟩

/-- Witness for C5 at a concrete file set with zero entries. -/
theorem csv_rows_match_entries_witness :
    csvEntryCount [fileNoEntries] = 0 ∧
    ((csvOutput [fileNoEntries]).1 = none ∧ (csvOutput [fileNoEntries]).2 ≠ []) :=
  ⟨by decide, (csv_rows_match_entries [fileNoEntries]).2.2 (by decide)⟩

/-- C6: an entry whose `creationDate` is missing or unparseable is not
admitted, hence never appears in the sorted batch handed to the
creation loop. -/
theorem unparseable_date_excluded (es : List Entry) (e : Entry)
    (h : admitEntry e = none) :
    e ∉ (sortEntries (collectEntries es)).map AdmEntry.data := by
  intro hmem
  obtain ⟨a, ha, hae⟩ := List.mem_map.mp hmem
  have ha2 : a ∈ collectEntries es := by
    unfold sortEntries at ha
    exact (List.mem_insertionSort entryLe).mp ha
  unfold collectEntries at ha2
  obtain ⟨x, _, hx⟩ := List.mem_filterMap.mp ha2
  have hxa : a.data = x := (admitEntry_eq_some x a hx).1
  have hxe : x = e := hxa.symm.trans hae
  rw [hxe] at hx
  rw [hx] at h
  exact absurd h (by simp)

/-- Witness for C6 at a concrete unparseable date. -/
theorem unparseable_date_excluded_witness :
    admitEntry entryBadDate = none ∧
    entryBadDate ∉
      (sortEntries (collectEntries [entryJan1, entryBadDate])).map AdmEntry.data :=
  ⟨by decide,
   unparseable_date_excluded [entryJan1, entryBadDate] entryBadDate (by decide)⟩

/-- C7: the page built for an admitted entry has its title equal to the
parsed creation timestamp shifted to UTC+9 and formatted `YYYY-MM-DD`,
its date property equal to the same string, and its children exactly
the image blocks followed by the per-line text blocks. -/
theorem record_title_date_children (env : Env) (e : Entry) (item : AdmEntry)
    (h : admitEntry e = some item) :
    (mkRecord env item).title = jstDateChars item.dt ∧
    (mkRecord env item).dateStart = jstDateChars item.dt ∧
    (mkRecord env item).children
      = (photoBlocks env item.data).1
          ++ (pySplitLines item.data.text).map
              (fun l => Block.paragraph (truncLine l)) := by
  have htd := titleAndDate_of_admitted e item h
  refine ⟨?_, ?_, ?_⟩
  · show (titleAndDate item).1 = _
    rw [htd]
  · show (titleAndDate item).2 = _
    rw [htd]
  · show addTextBlocks (photoBlocks env item.data).1 (pySplitLines item.data.text) = _
    rw [addTextBlocks_eq]

/-- Witness for C7 at a concrete admitted entry. -/
theorem record_title_date_children_witness :
    admitEntry entryJan1 = some admittedJan1 ∧
    ((mkRecord env0 admittedJan1).title = jstDateChars admittedJan1.dt ∧
     (mkRecord env0 admittedJan1).dateStart = jstDateChars admittedJan1.dt ∧
     (mkRecord env0 admittedJan1).children
       = (photoBlocks env0 admittedJan1.data).1
           ++ (pySplitLines admittedJan1.data.text).map
               (fun l => Block.paragraph (truncLine l))) :=
  ⟨by decide, record_title_date_children env0 entryJan1 admittedJan1 (by decide)⟩

/-- C8: uploads are attempted exactly for the photo references whose
backing file `<md5>.<type>` exists locally, and the entry's photo
blocks are one per attempted upload — an image block on success, a
fallback failure paragraph otherwise. -/
theorem photo_upload_attempts_and_blocks (env : Env) (entry : Entry) :
    (photoBlocks env entry).2 = attemptedOf env entry ∧
    (∀ fn ∈ (photoBlocks env entry).2, env.fileExists (photosDir ++ fn) = true) ∧
    (photoBlocks env entry).1
      = ((photoBlocks env entry).2).map (outcomeBlock env) := by
  rw [photoBlocks_eq]
  exact ⟨rfl, fun fn hfn => mem_attemptedList env _ fn hfn, rfl⟩

/-- C9: when the secrets file is absent or holds invalid JSON, the run
prints a diagnostic and stops before reading any entry file or
processing any record. -/
theorem missing_config_aborts (sf : SecretsFile) (files : List JsonFile)
    (env : Env) (okCreate : AdmEntry → Bool)
    (h : sf = SecretsFile.absent ∨ sf = SecretsFile.invalidJson) :
    (process_dayone_json_to_notion sf files env okCreate).filesRead = [] ∧
    (process_dayone_json_to_notion sf files env okCreate).finalState = none ∧
    (process_dayone_json_to_notion sf files env okCreate).logs ≠ [] := by
  rcases h with h | h
  · subst h
    exact ⟨rfl, rfl, by simp [process_dayone_json_to_notion, load_secrets]⟩
  · subst h
    exact ⟨rfl, rfl, by simp [process_dayone_json_to_notion, load_secrets]⟩

/-- Witness for C9 with the secrets file absent. -/
theorem missing_config_aborts_witness :
    (SecretsFile.absent = SecretsFile.absent ∨
      SecretsFile.absent = SecretsFile.invalidJson) ∧
    ((process_dayone_json_to_notion SecretsFile.absent [fileNoEntries] env0
        alwaysFailCreate).filesRead = [] ∧
     (process_dayone_json_to_notion SecretsFile.absent [fileNoEntries] env0
        alwaysFailCreate).finalState = none ∧
     (process_dayone_json_to_notion SecretsFile.absent [fileNoEntries] env0
        alwaysFailCreate).logs ≠ []) :=
  ⟨Or.inl rfl,
   missing_config_aborts SecretsFile.absent [fileNoEntries] env0 alwaysFailCreate
     (Or.inl rfl)⟩

/-- C10: for an admitted entry the creation loop's re-parse of
`creationDate` succeeds with the same instant, so the "Error parsing
date" fallback is unreachable and the title is the formatted date, not
the raw string. -/
theorem reparse_cannot_fail (e : Entry) (item : AdmEntry)
    (h : admitEntry e = some item) :
    (∃ dtv, fromisoformat (pyReplaceZ item.data.creationDate) = some dtv ∧
        instantUSec dtv = item.dt) ∧
    titleAndDate item = (jstDateChars item.dt, jstDateChars item.dt) := by
  obtain ⟨hdata, _, dtv, hparse, hdt⟩ := admitEntry_eq_some e item h
  refine ⟨⟨dtv, ?_, hdt.symm⟩, titleAndDate_of_admitted e item h⟩
  rw [hdata]
  exact hparse

/-- Witness for C10 at a concrete admitted entry. -/
theorem reparse_cannot_fail_witness :
    admitEntry entryJan1 = some admittedJan1 ∧
    ((∃ dtv, fromisoformat (pyReplaceZ admittedJan1.data.creationDate) = some dtv ∧
         instantUSec dtv = admittedJan1.dt) ∧
     titleAndDate admittedJan1
       = (jstDateChars admittedJan1.dt, jstDateChars admittedJan1.dt)) :=
  ⟨by decide, reparse_cannot_fail entryJan1 admittedJan1 (by decide)⟩

end DayOne
